import Mathlib

/-!
Shallow embedding of `src/server.py` (memecoin-generator): a single-endpoint
aiohttp proxy that builds a prompt, submits it to a remote image-generation
API, polls for completion, and relays the result.  Network behaviour of the
remote service is a parameter (`RemoteBehavior`); each handler becomes a pure
function from the request and that parameter to an HTTP response together with
a trace of the outbound calls it made.
-/

/-- Minimal JSON value: the handlers only ever emit strings and booleans. -/
inductive JsonVal where
  | str (s : String)
  | bool (b : Bool)
deriving DecidableEq, Repr

/-- Response bodies: `web.Response()` has an empty body, `serve_html` returns
text, `web.json_response` returns a JSON object (field order preserved). -/
inductive Body where
  | empty
  | text (s : String)
  | jsonObj (fields : List (String × JsonVal))
deriving DecidableEq, Repr

/-- An HTTP response: status code, body, and headers (set by middleware). -/
structure HttpResponse where
  status : Nat
  body : Body
  headers : List (String × String)
deriving DecidableEq, Repr

/-- The JSON body of `POST /api/generate`, per field, `none` when the key is
absent from the request object (`data.get` in the source). -/
structure GenRequest where
  idea : Option String
  generatedName : Option String
  isRegeneration : Option Bool
  artStyle : Option String
deriving DecidableEq, Repr

/-- `generations_by_pk` object of a poll response: job status string and the
`url` fields of the `generated_images` array. -/
structure GenerationsByPk where
  status : String
  generated_images : List String
deriving DecidableEq, Repr

/-- One poll response: HTTP status of the `GET /generations/{id}` call and its
parsed body. -/
structure PollResponse where
  status : Nat
  generations_by_pk : GenerationsByPk
deriving DecidableEq, Repr

/-- Behaviour of the remote Leonardo API during one request: the submission
response (HTTP status, raw text, and the parsed `sdGenerationJob.generationId`,
`none` when that key path is missing — a `KeyError` in the source) and the
sequence of poll responses, indexed by attempt number starting at 0. -/
structure RemoteBehavior where
  submitStatus : Nat
  submitText : String
  submitGenerationId : Option String
  polls : Nat → PollResponse

/-- Trace of outbound network calls made while serving one request: the
prompts POSTed to the generations endpoint and the number of poll GETs. -/
structure Trace where
  submits : List String
  pollCount : Nat
deriving DecidableEq, Repr

/-- Python truthiness of `data.get('idea')`: `None` and `""` are falsy. -/
def pyTruthyStr : Option String → Bool
  | none => false
  | some s => !(s == "")

def pixelStyle : String :=
  "16-bit pixel art style, retro gaming aesthetic, clean pixelated edges,\n        reminiscent of classic video games, limited color palette, sharp pixels"

def animeStyle : String :=
  "anime art style, manga-inspired, cel-shaded, vibrant colors,\n        kawaii aesthetic, clean linework, anime character design"

def threeDStyle : String :=
  "3D rendered style, volumetric lighting, subsurface scattering,\n        realistic textures, ambient occlusion, ray-traced reflections"

def minimalistStyle : String :=
  "minimalist design, clean lines, simple shapes,\n        limited color palette, negative space, geometric composition"

def cartoonStyle : String :=
  "cartoon style, bold outlines, vibrant colors,\n        exaggerated features, playful design, smooth shading"

def realisticStyle : String :=
  "realistic digital painting, detailed textures,\n        professional illustration, photorealistic elements, detailed shading"

/-- The `ART_STYLE_PROMPTS` dict of the source, as an association list. -/
def ART_STYLE_PROMPTS : List (String × String) :=
  [("pixel", pixelStyle),
   ("anime", animeStyle),
   ("3d", threeDStyle),
   ("minimalist", minimalistStyle),
   ("cartoon", cartoonStyle),
   ("realistic", realisticStyle)]

/-- Python `dict.get(key, default)` on an association list. -/
def dictGet (d : List (String × String)) (k : String) (default : String) : String :=
  match d.find? (fun p => p.1 == k) with
  | some p => p.2
  | none => default

/-- The f-string of lines 66-69 of the source, as a function of the chosen
subject and the style descriptor. -/
def base_prompt (subject style_prompt : String) : String :=
  "detailed cryptocurrency mascot logo of a " ++ subject
    ++ ",\n            " ++ style_prompt
    ++ ",\n            centered composition, clean vectorized style,\n            suitable for crypto token, professional logo design"

/-- Lines 63-69: style lookup with pixel fallback and the composed f-string.
`generated_name or idea` in Python picks `generated_name` when it is a
non-empty string and `idea` otherwise. -/
def buildPrompt (generated_name idea art_style : String) : String :=
  let style_prompt := dictGet ART_STYLE_PROMPTS art_style pixelStyle
  base_prompt (if generated_name == "" then idea else generated_name) style_prompt

/-- Outcome of the poll loop of lines 113-126. -/
inductive PollOutcome where
  | success (url : String)
  | indexError
  | timeout
deriving DecidableEq, Repr

/-- The poll loop body: `i` is the current attempt index, `fuel` the number of
loop iterations left (30 at the top-level call).  Returns the outcome and the
number of poll requests issued.  A non-200 response and a 200 response whose
status is not COMPLETE both fall through to the next iteration; a COMPLETE
response with an empty `generated_images` list hits the `[0]` indexing of line
121 and raises `IndexError` (modelled as an explicit outcome, since the source
catches it at line 130). -/
def pollLoopAux (polls : Nat → PollResponse) : Nat → Nat → PollOutcome × Nat
  | _, 0 => (PollOutcome.timeout, 0)
  | i, fuel+1 =>
    let r := polls i
    if r.status == 200 then
      if r.generations_by_pk.status == "COMPLETE" then
        match r.generations_by_pk.generated_images with
        | [] => (PollOutcome.indexError, 1)
        | url :: _ => (PollOutcome.success url, 1)
      else
        let rest := pollLoopAux polls (i+1) fuel
        (rest.1, rest.2 + 1)
    else
      let rest := pollLoopAux polls (i+1) fuel
      (rest.1, rest.2 + 1)

/-- The condition on which line 120-121 fires for a poll response: HTTP 200
and job status COMPLETE. -/
def pollHit (r : PollResponse) : Bool :=
  r.status == 200 && r.generations_by_pk.status == "COMPLETE"

/-- The `POST /api/generate` handler (lines 50-139), as a pure function of the
request body and the remote behaviour.  Mirrors the source control flow:
missing/empty idea → 400; non-200 submission → the remote status is passed
through as the response status with a `Failed to generate image` body; missing
`sdGenerationJob.generationId` → `KeyError` caught at line 130 → 500; then the
30-attempt poll loop, whose `IndexError` on an empty image list is likewise
caught at line 130 → 500; loop exhaustion → 500 timeout body. -/
def generate (req : GenRequest) (remote : RemoteBehavior) : HttpResponse × Trace :=
  let idea := req.idea
  let generated_name := req.generatedName.getD ""
  let art_style := req.artStyle.getD "pixel"
  if !(pyTruthyStr idea) then
    ({status := 400, body := Body.jsonObj [("error", JsonVal.str "No idea provided")], headers := []},
     {submits := [], pollCount := 0})
  else
    let prompt := buildPrompt generated_name (idea.getD "") art_style
    if !(remote.submitStatus == 200) then
      ({status := remote.submitStatus,
        body := Body.jsonObj [("error", JsonVal.str ("Failed to generate image: " ++ remote.submitText))],
        headers := []},
       {submits := [prompt], pollCount := 0})
    else
      match remote.submitGenerationId with
      | none =>
        ({status := 500,
          body := Body.jsonObj [("error", JsonVal.str "API request failed: \x27sdGenerationJob\x27")],
          headers := []},
         {submits := [prompt], pollCount := 0})
      | some _ =>
        match pollLoopAux remote.polls 0 30 with
        | (PollOutcome.success url, n) =>
          ({status := 200,
            body := Body.jsonObj [("success", JsonVal.bool true), ("imageUrl", JsonVal.str url)],
            headers := []},
           {submits := [prompt], pollCount := n})
        | (PollOutcome.indexError, n) =>
          ({status := 500,
            body := Body.jsonObj [("error", JsonVal.str "API request failed: list index out of range")],
            headers := []},
           {submits := [prompt], pollCount := n})
        | (PollOutcome.timeout, n) =>
          ({status := 500,
            body := Body.jsonObj [("error", JsonVal.str "Timeout waiting for image")],
            headers := []},
           {submits := [prompt], pollCount := n})

/-- The composed prompt as the spec describes it: the subject is
`generatedName` when present and non-empty, otherwise `idea`; the style
descriptor is looked up by `artStyle` in the fixed mapping, falling back to
the pixel descriptor for unrecognized keys. -/
def promptOfRequest (req : GenRequest) : String :=
  let subject :=
    match req.generatedName with
    | some g => if g == "" then req.idea.getD "" else g
    | none => req.idea.getD ""
  base_prompt subject (dictGet ART_STYLE_PROMPTS (req.artStyle.getD "pixel") pixelStyle)

/-- `GET /ping` handler (lines 42-44). -/
def ping_handler : HttpResponse :=
  {status := 200,
   body := Body.jsonObj [("status", JsonVal.str "ok"), ("message", JsonVal.str "Server is running")],
   headers := []}

/-- `POST /api/test` handler (lines 46-48). -/
def test_handler : HttpResponse :=
  {status := 200,
   body := Body.jsonObj [("status", JsonVal.str "success"), ("message", JsonVal.str "Test successful")],
   headers := []}

/-- `GET /` handler (lines 34-40): the result of reading `index.html` is a
parameter (ok content, or the exception text on read failure). -/
def serve_html (readResult : Except String String) : HttpResponse :=
  match readResult with
  | Except.ok content => {status := 200, body := Body.text content, headers := []}
  | Except.error e => {status := 500, body := Body.text e, headers := []}

/-- `response.headers[k] = v`: replace any existing value for `k`. -/
def setHeader (hs : List (String × String)) (k v : String) : List (String × String) :=
  hs.filter (fun p => !(p.1 == k)) ++ [(k, v)]

/-- An aiohttp `HTTPException` raised during request handling: the system
routes of the URL dispatcher raise `HTTPNotFound` (404) for an unmatched path
and `HTTPMethodNotAllowed` (405) for a known path with an unregistered
method. -/
structure RouteError where
  status : Nat
  reason : String
deriving DecidableEq, Repr

/-- Lines 153-155: set the three CORS headers on a response. -/
def setCors (r : HttpResponse) : HttpResponse :=
  {r with
    headers :=
      setHeader
        (setHeader
          (setHeader r.headers "Access-Control-Allow-Origin" "*")
          "Access-Control-Allow-Methods" "GET, POST, OPTIONS")
        "Access-Control-Allow-Headers" "Content-Type"}

/-- The CORS middleware of lines 146-157: an OPTIONS request short-circuits to
an empty `web.Response()` (status 200) without awaiting the handler, then the
three CORS headers are set; otherwise the handler is awaited — if it raises
(as the system routes do for unmatched requests), the exception propagates
past the header-setting of lines 153-155, since the middleware has no
try/except — and the headers are set only on a normally returned response. -/
def cors_middleware (method : String) (handler : Except RouteError HttpResponse) :
    Except RouteError HttpResponse :=
  if method == "OPTIONS" then
    Except.ok (setCors {status := 200, body := Body.empty, headers := []})
  else
    match handler with
    | Except.ok response => Except.ok (setCors response)
    | Except.error e => Except.error e

/-- aiohttp route resolution over the four registered routes: a matched route
runs its handler, which returns a response; an unmatched path resolves to a
system route whose handler raises `HTTPNotFound`, and a registered path with
the wrong method raises `HTTPMethodNotAllowed`. -/
def dispatch (method path : String) (htmlRead : Except String String)
    (req : GenRequest) (remote : RemoteBehavior) : Except RouteError HttpResponse :=
  if method == "GET" && path == "/" then Except.ok (serve_html htmlRead)
  else if method == "GET" && path == "/ping" then Except.ok ping_handler
  else if method == "POST" && path == "/api/test" then Except.ok test_handler
  else if method == "POST" && path == "/api/generate" then Except.ok ((generate req remote).1)
  else if path == "/" || path == "/ping" || path == "/api/test" || path == "/api/generate" then
    Except.error {status := 405, reason := "Method Not Allowed"}
  else
    Except.error {status := 404, reason := "Not Found"}

/-- A full server response: routing wrapped in the CORS middleware as
`init_app` assembles it.  An `HTTPException` that propagates out of the
middleware is rendered by the framework's protocol layer as a plain error
response — without the CORS headers, which only lines 153-155 would add. -/
def server (method path : String) (htmlRead : Except String String)
    (req : GenRequest) (remote : RemoteBehavior) : HttpResponse :=
  match cors_middleware method (dispatch method path htmlRead req remote) with
  | Except.ok r => r
  | Except.error e => {status := e.status, body := Body.text e.reason, headers := []}

/-- A well-formed request with a non-empty idea, used as input for concrete
instantiations. -/
def reqOk : GenRequest :=
  {idea := some "a shiba inu", generatedName := none, isRegeneration := none, artStyle := none}

/-- A request whose body has no `idea` key. -/
def reqNoIdea : GenRequest :=
  {idea := none, generatedName := none, isRegeneration := none, artStyle := none}

/-- A poll response whose job is still pending (HTTP 200). -/
def pendingPoll : PollResponse :=
  {status := 200, generations_by_pk := {status := "PENDING", generated_images := []}}

/-- A poll response with a server-side error (HTTP 500). -/
def poll500 : PollResponse :=
  {status := 500, generations_by_pk := {status := "PENDING", generated_images := []}}

/-- A remote whose submission call is rejected with HTTP 403. -/
def remoteReject : RemoteBehavior :=
  {submitStatus := 403, submitText := "forbidden", submitGenerationId := none,
   polls := fun _ => pendingPoll}

/-- A remote that accepts the submission but never completes the job. -/
def remoteNeverDone : RemoteBehavior :=
  {submitStatus := 200, submitText := "ok", submitGenerationId := some "gid-3",
   polls := fun _ => pendingPoll}

/-- A remote that accepts the submission but whose response body lacks
`sdGenerationJob.generationId`. -/
def remoteNoId : RemoteBehavior :=
  {submitStatus := 200, submitText := "ok", submitGenerationId := none,
   polls := fun _ => pendingPoll}

/-- Poll sequence whose first attempt is COMPLETE with an empty image list and
whose second attempt is COMPLETE with a non-empty one. -/
def pollsEmptyThenFull : Nat → PollResponse := fun j =>
  if j == 0 then {status := 200, generations_by_pk := {status := "COMPLETE", generated_images := []}}
  else if j == 1 then
    {status := 200, generations_by_pk := {status := "COMPLETE", generated_images := ["https://img.example/1.png"]}}
  else pendingPoll

def remoteEmptyThenFull : RemoteBehavior :=
  {submitStatus := 200, submitText := "ok", submitGenerationId := some "gid-1",
   polls := pollsEmptyThenFull}

/-- Poll sequence that is pending for 4 attempts and COMPLETE with two images
on the fifth (index 4). -/
def pollsDoneAt5 : Nat → PollResponse := fun j =>
  if j < 4 then pendingPoll
  else if j == 4 then
    {status := 200,
     generations_by_pk := {status := "COMPLETE",
                           generated_images := ["https://img.example/a.png", "https://img.example/b.png"]}}
  else pendingPoll

def remoteDoneAt5 : RemoteBehavior :=
  {submitStatus := 200, submitText := "ok", submitGenerationId := some "gid-2",
   polls := pollsDoneAt5}

/-- Poll sequence whose very first attempt is COMPLETE with an empty image
list. -/
def pollsEmptyComplete : Nat → PollResponse := fun j =>
  if j == 0 then {status := 200, generations_by_pk := {status := "COMPLETE", generated_images := []}}
  else pendingPoll

def remoteEmptyComplete : RemoteBehavior :=
  {submitStatus := 200, submitText := "ok", submitGenerationId := some "gid-4",
   polls := pollsEmptyComplete}

/-! ### Helper lemmas about the poll loop -/

lemma pollHit_eq_false (r : PollResponse)
    (h : ¬(r.status = 200 ∧ r.generations_by_pk.status = "COMPLETE")) :
    pollHit r = false := by
  by_contra hb
  rw [Bool.not_eq_false] at hb
  simp only [pollHit, Bool.and_eq_true, beq_iff_eq] at hb
  exact h hb

lemma pollLoopAux_step_miss (polls : Nat → PollResponse) (i fuel : Nat)
    (h : pollHit (polls i) = false) :
    pollLoopAux polls i (fuel + 1)
      = ((pollLoopAux polls (i+1) fuel).1, (pollLoopAux polls (i+1) fuel).2 + 1) := by
  simp only [pollHit] at h
  cases hb : ((polls i).status == 200) with
  | false => simp [pollLoopAux, hb]
  | true =>
    rw [hb, Bool.true_and] at h
    simp [pollLoopAux, hb, h]

lemma pollLoopAux_skip (polls : Nat → PollResponse) (m : Nat) :
    ∀ (i fuel : Nat), (∀ j, j < m → pollHit (polls (i + j)) = false) →
    pollLoopAux polls i (m + fuel)
      = ((pollLoopAux polls (i + m) fuel).1, (pollLoopAux polls (i + m) fuel).2 + m) := by
  induction m with
  | zero => intro i fuel _; simp
  | succ m ih =>
    intro i fuel h
    have h0 : pollHit (polls i) = false := by
      have := h 0 (Nat.succ_pos m)
      simpa using this
    have e1 : m + 1 + fuel = (m + fuel) + 1 := by omega
    rw [e1, pollLoopAux_step_miss polls i (m + fuel) h0]
    have hrec := ih (i+1) fuel (fun j hj => by
      have hx := h (j+1) (by omega)
      have e : i + (j+1) = i + 1 + j := by omega
      rwa [e] at hx)
    rw [hrec]
    have e2 : i + 1 + m = i + (m + 1) := by omega
    rw [e2]
    simp [Nat.add_assoc]

lemma pollLoopAux_all_miss (polls : Nat → PollResponse) (n : Nat)
    (h : ∀ j, j < n → pollHit (polls j) = false) :
    pollLoopAux polls 0 n = (PollOutcome.timeout, n) := by
  have hs := pollLoopAux_skip polls n 0 0 (fun j hj => by simpa using h j hj)
  simpa [pollLoopAux] using hs

lemma pollLoopAux_first_hit (polls : Nat → PollResponse) (m fuel : Nat)
    (hmiss : ∀ j, j < m → pollHit (polls j) = false)
    (hhit : pollHit (polls m) = true) :
    pollLoopAux polls 0 (m + (fuel + 1))
      = ((match (polls m).generations_by_pk.generated_images with
          | [] => PollOutcome.indexError
          | url :: _ => PollOutcome.success url), m + 1) := by
  have hskip := pollLoopAux_skip polls m 0 (fuel + 1) (fun j hj => by simpa using hmiss j hj)
  simp only [Nat.zero_add] at hskip
  rw [hskip]
  simp only [pollHit, Bool.and_eq_true] at hhit
  obtain ⟨hs, hc⟩ := hhit
  cases himg : (polls m).generations_by_pk.generated_images with
  | nil => simp [pollLoopAux, hs, hc, himg, Nat.add_comm]
  | cons u tl => simp [pollLoopAux, hs, hc, himg, Nat.add_comm]

lemma buildPrompt_eq (req : GenRequest) :
    buildPrompt (req.generatedName.getD "") (req.idea.getD "") (req.artStyle.getD "pixel")
      = promptOfRequest req := by
  cases hgn : req.generatedName with
  | none => simp [buildPrompt, promptOfRequest, hgn]
  | some g => by_cases hg : g = "" <;> simp [buildPrompt, promptOfRequest, hgn, hg]

lemma generate_submits (req : GenRequest) (remote : RemoteBehavior)
    (h1 : pyTruthyStr req.idea = true) :
    (generate req remote).2.submits = [promptOfRequest req] := by
  have hp := buildPrompt_eq req
  simp only [generate, h1, Bool.not_true, Bool.false_eq_true, if_false]
  split
  · simp [hp]
  · split
    · simp [hp]
    · split <;> simp [hp]

lemma mem_setHeader_self (hs : List (String × String)) (k v : String) :
    (k, v) ∈ setHeader hs k v := by
  simp [setHeader]

lemma mem_setHeader_of_ne (hs : List (String × String)) (k v k2 v2 : String)
    (h : (k, v) ∈ hs) (hne : k ≠ k2) :
    (k, v) ∈ setHeader hs k2 v2 := by
  simp only [setHeader, List.mem_append, List.mem_filter]
  exact Or.inl ⟨h, by simp [hne]⟩

lemma mem_setCors (r : HttpResponse) :
    ("Access-Control-Allow-Origin", "*") ∈ (setCors r).headers
    ∧ ("Access-Control-Allow-Methods", "GET, POST, OPTIONS") ∈ (setCors r).headers
    ∧ ("Access-Control-Allow-Headers", "Content-Type") ∈ (setCors r).headers := by
  refine ⟨?_, ?_, ?_⟩
  · exact mem_setHeader_of_ne _ _ _ _ _
      (mem_setHeader_of_ne _ _ _ _ _ (mem_setHeader_self _ _ _) (by decide)) (by decide)
  · exact mem_setHeader_of_ne _ _ _ _ _ (mem_setHeader_self _ _ _) (by decide)
  · exact mem_setHeader_self _ _ _

/-! ### Claim theorems -/

/-- C1 (counterexample): the claim says a non-200 submission response yields
an HTTP 500 from the service; but on a remote 403 the service passes the
remote status through, answering 403, not 500. -/
theorem C1_counterexample :
    remoteReject.submitStatus = 403
    ∧ (generate reqOk remoteReject).1.status = 403
    ∧ ¬((generate reqOk remoteReject).1.status = 500) := by
  decide

/-- C1 (amended): when the submission POST returns a non-200 status, the
service responds with that same status (not 500) and a JSON body
`{"error": "Failed to generate image: <remote text>"}`, issuing no polls. -/
theorem C1_remote_failure (req : GenRequest) (remote : RemoteBehavior)
    (h1 : pyTruthyStr req.idea = true)
    (h2 : remote.submitStatus ≠ 200) :
    (generate req remote).1.status = remote.submitStatus
    ∧ (generate req remote).1.body
        = Body.jsonObj [("error", JsonVal.str ("Failed to generate image: " ++ remote.submitText))]
    ∧ (generate req remote).2.pollCount = 0 := by
  have hb : (remote.submitStatus == 200) = false := by simpa using h2
  simp [generate, h1, hb]

theorem C1_remote_failure_witness :
    pyTruthyStr reqOk.idea = true
    ∧ remoteReject.submitStatus ≠ 200
    ∧ ((generate reqOk remoteReject).1.status = remoteReject.submitStatus
       ∧ (generate reqOk remoteReject).1.body
           = Body.jsonObj [("error", JsonVal.str ("Failed to generate image: " ++ remoteReject.submitText))]
       ∧ (generate reqOk remoteReject).2.pollCount = 0) :=
  ⟨by decide, by decide, C1_remote_failure reqOk remoteReject (by decide) (by decide)⟩

/-- C2: when the request body lacks `idea` or has an empty `idea`, the service
returns 400 with exactly `{"error": "No idea provided"}` and makes no outbound
call at all (no submission, no polls). -/
theorem C2_missing_idea (req : GenRequest) (remote : RemoteBehavior)
    (h : req.idea = none ∨ req.idea = some "") :
    generate req remote
      = ({status := 400, body := Body.jsonObj [("error", JsonVal.str "No idea provided")], headers := []},
         {submits := [], pollCount := 0}) := by
  have hf : pyTruthyStr req.idea = false := by
    rcases h with h | h <;> simp [pyTruthyStr, h]
  simp [generate, hf]

theorem C2_missing_idea_witness :
    (reqNoIdea.idea = none ∨ reqNoIdea.idea = some "")
    ∧ generate reqNoIdea remoteNeverDone
        = ({status := 400, body := Body.jsonObj [("error", JsonVal.str "No idea provided")], headers := []},
           {submits := [], pollCount := 0}) :=
  ⟨Or.inl rfl, C2_missing_idea reqNoIdea remoteNeverDone (Or.inl rfl)⟩

/-- C3: the prompt POSTed to the remote API is a pure function of the request
(`promptOfRequest`, which embeds generatedName if present and non-empty else
idea, and the style descriptor looked up by artStyle); and for any artStyle
key outside the fixed mapping the lookup falls back to the pixel descriptor. -/
theorem C3_prompt :
    (∀ (req : GenRequest) (remote : RemoteBehavior), pyTruthyStr req.idea = true →
       (generate req remote).2.submits = [promptOfRequest req])
    ∧ (∀ s : String, ART_STYLE_PROMPTS.find? (fun p => p.1 == s) = none →
       dictGet ART_STYLE_PROMPTS s pixelStyle = pixelStyle) := by
  constructor
  · intro req remote h1
    exact generate_submits req remote h1
  · intro s h
    simp [dictGet, h]

theorem C3_prompt_witness :
    (pyTruthyStr reqOk.idea = true
     ∧ (generate reqOk remoteNeverDone).2.submits = [promptOfRequest reqOk])
    ∧ (ART_STYLE_PROMPTS.find? (fun p => p.1 == "watercolor") = none
       ∧ dictGet ART_STYLE_PROMPTS "watercolor" pixelStyle = pixelStyle) :=
  ⟨⟨by decide, C3_prompt.1 reqOk remoteNeverDone (by decide)⟩,
   ⟨by decide, C3_prompt.2 "watercolor" (by decide)⟩⟩

/-- C4 (counterexample): the claim quantifies over all poll sequences in which
attempt k is the first returning HTTP 200 with status COMPLETE and a non-empty
`generated_images` list.  In `remoteEmptyThenFull`, attempt 2 (index 1) is that
first attempt — attempt 1 is COMPLETE but with an empty list — yet the service
answers 500 after a single poll (the empty list raises `IndexError` at line
121, caught at line 130), instead of success after exactly 2 attempts. -/
theorem C4_counterexample :
    (¬((pollsEmptyThenFull 0).status = 200
       ∧ (pollsEmptyThenFull 0).generations_by_pk.status = "COMPLETE"
       ∧ (pollsEmptyThenFull 0).generations_by_pk.generated_images ≠ []))
    ∧ ((pollsEmptyThenFull 1).status = 200
       ∧ (pollsEmptyThenFull 1).generations_by_pk.status = "COMPLETE"
       ∧ (pollsEmptyThenFull 1).generations_by_pk.generated_images ≠ [])
    ∧ (generate reqOk remoteEmptyThenFull).1.status = 500
    ∧ (generate reqOk remoteEmptyThenFull).2.pollCount = 1 := by
  decide

/-- C4 (amended): when attempt k = m+1 (with m < 30) is the first poll attempt
returning HTTP 200 with status COMPLETE, and that attempt carries a non-empty
`generated_images` list, the service returns `{"success": true, "imageUrl":
first-url}` after exactly k poll requests and polls no further. -/
theorem C4_first_complete (req : GenRequest) (remote : RemoteBehavior) (gid : String)
    (m : Nat) (url : String) (tl : List String)
    (h1 : pyTruthyStr req.idea = true)
    (h2 : remote.submitStatus = 200)
    (h3 : remote.submitGenerationId = some gid)
    (hm : m < 30)
    (hmiss : ∀ j, j < m →
      ¬((remote.polls j).status = 200 ∧ (remote.polls j).generations_by_pk.status = "COMPLETE"))
    (hs : (remote.polls m).status = 200)
    (hc : (remote.polls m).generations_by_pk.status = "COMPLETE")
    (himg : (remote.polls m).generations_by_pk.generated_images = url :: tl) :
    (generate req remote).1.status = 200
    ∧ (generate req remote).1.body
        = Body.jsonObj [("success", JsonVal.bool true), ("imageUrl", JsonVal.str url)]
    ∧ (generate req remote).2.pollCount = m + 1 := by
  have hhit : pollHit (remote.polls m) = true := by simp [pollHit, hs, hc]
  have h30 : m + ((30 - m - 1) + 1) = 30 := by omega
  have hp := pollLoopAux_first_hit remote.polls m (30 - m - 1)
    (fun j hj => pollHit_eq_false _ (hmiss j hj)) hhit
  rw [h30] at hp
  simp only [himg] at hp
  simp [generate, h1, h2, h3, hp]

theorem C4_first_complete_witness :
    pyTruthyStr reqOk.idea = true
    ∧ remoteDoneAt5.submitStatus = 200
    ∧ remoteDoneAt5.submitGenerationId = some "gid-2"
    ∧ 4 < 30
    ∧ (∀ j, j < 4 →
        ¬((remoteDoneAt5.polls j).status = 200
          ∧ (remoteDoneAt5.polls j).generations_by_pk.status = "COMPLETE"))
    ∧ (remoteDoneAt5.polls 4).status = 200
    ∧ (remoteDoneAt5.polls 4).generations_by_pk.status = "COMPLETE"
    ∧ (remoteDoneAt5.polls 4).generations_by_pk.generated_images
        = "https://img.example/a.png" :: ["https://img.example/b.png"]
    ∧ ((generate reqOk remoteDoneAt5).1.status = 200
       ∧ (generate reqOk remoteDoneAt5).1.body
           = Body.jsonObj [("success", JsonVal.bool true),
                           ("imageUrl", JsonVal.str "https://img.example/a.png")]
       ∧ (generate reqOk remoteDoneAt5).2.pollCount = 4 + 1) :=
  ⟨by decide, by decide, by decide, by decide, by decide, by decide, by decide, by decide,
   C4_first_complete reqOk remoteDoneAt5 "gid-2" 4 "https://img.example/a.png"
     ["https://img.example/b.png"] (by decide) (by decide) (by decide) (by decide)
     (by decide) (by decide) (by decide) (by decide)⟩

/-- C5: when no poll attempt within the first 30 returns HTTP 200 with status
COMPLETE, the service issues exactly 30 poll requests and then answers 500
with the JSON body `{"error": "Timeout waiting for image"}`. -/
theorem C5_timeout (req : GenRequest) (remote : RemoteBehavior) (gid : String)
    (h1 : pyTruthyStr req.idea = true)
    (h2 : remote.submitStatus = 200)
    (h3 : remote.submitGenerationId = some gid)
    (hmiss : ∀ j, j < 30 →
      ¬((remote.polls j).status = 200 ∧ (remote.polls j).generations_by_pk.status = "COMPLETE")) :
    (generate req remote).1.status = 500
    ∧ (generate req remote).1.body = Body.jsonObj [("error", JsonVal.str "Timeout waiting for image")]
    ∧ (generate req remote).2.pollCount = 30 := by
  have hp : pollLoopAux remote.polls 0 30 = (PollOutcome.timeout, 30) :=
    pollLoopAux_all_miss _ _ (fun j hj => pollHit_eq_false _ (hmiss j hj))
  simp [generate, h1, h2, h3, hp]

theorem C5_timeout_witness :
    pyTruthyStr reqOk.idea = true
    ∧ remoteNeverDone.submitStatus = 200
    ∧ remoteNeverDone.submitGenerationId = some "gid-3"
    ∧ (∀ j, j < 30 →
        ¬((remoteNeverDone.polls j).status = 200
          ∧ (remoteNeverDone.polls j).generations_by_pk.status = "COMPLETE"))
    ∧ ((generate reqOk remoteNeverDone).1.status = 500
       ∧ (generate reqOk remoteNeverDone).1.body
           = Body.jsonObj [("error", JsonVal.str "Timeout waiting for image")]
       ∧ (generate reqOk remoteNeverDone).2.pollCount = 30) :=
  ⟨by decide, by decide, by decide, by decide,
   C5_timeout reqOk remoteNeverDone "gid-3" (by decide) (by decide) (by decide) (by decide)⟩

/-- C6: a poll attempt answered with a non-200 HTTP status is a no-op: the
loop neither fails nor returns early — its result is exactly the result of
continuing from the next attempt — and the attempt still consumes one unit of
fuel (counted against the 30-attempt ceiling) and one poll request. -/
theorem C6_non200_noop (polls : Nat → PollResponse) (i fuel : Nat)
    (h : (polls i).status ≠ 200) :
    pollLoopAux polls i (fuel + 1)
      = ((pollLoopAux polls (i+1) fuel).1, (pollLoopAux polls (i+1) fuel).2 + 1) := by
  have hb : ((polls i).status == 200) = false := by simpa using h
  simp [pollLoopAux, hb]

theorem C6_non200_noop_witness :
    ((fun _ => poll500) 0 : PollResponse).status ≠ 200
    ∧ pollLoopAux (fun _ => poll500) 0 (2 + 1)
        = ((pollLoopAux (fun _ => poll500) (0+1) 2).1, (pollLoopAux (fun _ => poll500) (0+1) 2).2 + 1) :=
  ⟨by decide, C6_non200_noop (fun _ => poll500) 0 2 (by decide)⟩

/-- C7: a submission answered HTTP 200 whose body lacks
`sdGenerationJob.generationId` makes the service answer 500 with a JSON error
body, and zero poll requests are issued. -/
theorem C7_missing_generation_id (req : GenRequest) (remote : RemoteBehavior)
    (h1 : pyTruthyStr req.idea = true)
    (h2 : remote.submitStatus = 200)
    (h3 : remote.submitGenerationId = none) :
    (generate req remote).1.status = 500
    ∧ (generate req remote).1.body
        = Body.jsonObj [("error", JsonVal.str "API request failed: \x27sdGenerationJob\x27")]
    ∧ (generate req remote).2.pollCount = 0 := by
  simp [generate, h1, h2, h3]

theorem C7_missing_generation_id_witness :
    pyTruthyStr reqOk.idea = true
    ∧ remoteNoId.submitStatus = 200
    ∧ remoteNoId.submitGenerationId = none
    ∧ ((generate reqOk remoteNoId).1.status = 500
       ∧ (generate reqOk remoteNoId).1.body
           = Body.jsonObj [("error", JsonVal.str "API request failed: \x27sdGenerationJob\x27")]
       ∧ (generate reqOk remoteNoId).2.pollCount = 0) :=
  ⟨by decide, by decide, by decide,
   C7_missing_generation_id reqOk remoteNoId (by decide) (by decide) (by decide)⟩

/-- C8 (counterexample): the claim says every response the server produces
carries the three CORS headers; but a GET to an unregistered path resolves to
a system route that raises `HTTPNotFound` past the middleware's
header-setting, so the resulting 404 response carries none of them. -/
theorem C8_counterexample :
    (server "GET" "/nonexistent" (Except.ok "<html></html>") reqOk remoteNeverDone).status = 404
    ∧ (server "GET" "/nonexistent" (Except.ok "<html></html>") reqOk remoteNeverDone).headers = []
    ∧ ¬(("Access-Control-Allow-Origin", "*")
        ∈ (server "GET" "/nonexistent" (Except.ok "<html></html>") reqOk remoteNeverDone).headers) := by
  decide

/-- C8 (amended): every response produced by a matched route handler carries
the three CORS headers (the middleware sets them on every response it
returns), and every OPTIONS request, to any route, returns status 200 with an
empty body and those three headers; only the framework's 404/405 exception
responses for unmatched requests, raised past the middleware's header-setting,
lack them. -/
theorem C8_cors (method path : String) (htmlRead : Except String String)
    (req : GenRequest) (remote : RemoteBehavior) :
    (∀ r : HttpResponse, dispatch method path htmlRead req remote = Except.ok r →
       ("Access-Control-Allow-Origin", "*") ∈ (server method path htmlRead req remote).headers
       ∧ ("Access-Control-Allow-Methods", "GET, POST, OPTIONS")
           ∈ (server method path htmlRead req remote).headers
       ∧ ("Access-Control-Allow-Headers", "Content-Type")
           ∈ (server method path htmlRead req remote).headers)
    ∧ (method = "OPTIONS" →
        (server method path htmlRead req remote).status = 200
        ∧ (server method path htmlRead req remote).body = Body.empty
        ∧ ("Access-Control-Allow-Origin", "*") ∈ (server method path htmlRead req remote).headers
        ∧ ("Access-Control-Allow-Methods", "GET, POST, OPTIONS")
            ∈ (server method path htmlRead req remote).headers
        ∧ ("Access-Control-Allow-Headers", "Content-Type")
            ∈ (server method path htmlRead req remote).headers) := by
  constructor
  · intro r hr
    by_cases hm : method = "OPTIONS"
    · have hsrv : server method path htmlRead req remote
          = setCors {status := 200, body := Body.empty, headers := []} := by
        simp [server, cors_middleware, hm]
      rw [hsrv]
      exact mem_setCors _
    · have hb : (method == "OPTIONS") = false := by simpa using hm
      have hsrv : server method path htmlRead req remote = setCors r := by
        simp [server, cors_middleware, hb, hr]
      rw [hsrv]
      exact mem_setCors _
  · intro hm
    have hsrv : server method path htmlRead req remote
        = setCors {status := 200, body := Body.empty, headers := []} := by
      simp [server, cors_middleware, hm]
    rw [hsrv]
    exact ⟨rfl, rfl, mem_setCors _⟩

theorem C8_cors_witness :
    (dispatch "GET" "/ping" (Except.ok "<html></html>") reqOk remoteNeverDone
        = Except.ok ping_handler
     ∧ (("Access-Control-Allow-Origin", "*")
          ∈ (server "GET" "/ping" (Except.ok "<html></html>") reqOk remoteNeverDone).headers
        ∧ ("Access-Control-Allow-Methods", "GET, POST, OPTIONS")
          ∈ (server "GET" "/ping" (Except.ok "<html></html>") reqOk remoteNeverDone).headers
        ∧ ("Access-Control-Allow-Headers", "Content-Type")
          ∈ (server "GET" "/ping" (Except.ok "<html></html>") reqOk remoteNeverDone).headers))
    ∧ ((server "OPTIONS" "/api/generate" (Except.ok "<html></html>") reqOk remoteNeverDone).status = 200
       ∧ (server "OPTIONS" "/api/generate" (Except.ok "<html></html>") reqOk remoteNeverDone).body
           = Body.empty
       ∧ ("Access-Control-Allow-Origin", "*")
           ∈ (server "OPTIONS" "/api/generate" (Except.ok "<html></html>") reqOk remoteNeverDone).headers
       ∧ ("Access-Control-Allow-Methods", "GET, POST, OPTIONS")
           ∈ (server "OPTIONS" "/api/generate" (Except.ok "<html></html>") reqOk remoteNeverDone).headers
       ∧ ("Access-Control-Allow-Headers", "Content-Type")
           ∈ (server "OPTIONS" "/api/generate" (Except.ok "<html></html>") reqOk remoteNeverDone).headers) :=
  ⟨⟨rfl,
    (C8_cors "GET" "/ping" (Except.ok "<html></html>") reqOk remoteNeverDone).1
      ping_handler rfl⟩,
   (C8_cors "OPTIONS" "/api/generate" (Except.ok "<html></html>") reqOk remoteNeverDone).2 rfl⟩

/-- C9: a poll attempt answered HTTP 200 with status COMPLETE but an empty
`generated_images` list is fatal: the loop stops there (k = m+1 polls issued in
total) and the service answers 500 with a JSON error body — the `IndexError`
raised by the `[0]` indexing at line 121 is caught at line 130 and converted,
not propagated to the transport layer. -/
theorem C9_empty_images_fatal (req : GenRequest) (remote : RemoteBehavior) (gid : String)
    (m : Nat)
    (h1 : pyTruthyStr req.idea = true)
    (h2 : remote.submitStatus = 200)
    (h3 : remote.submitGenerationId = some gid)
    (hm : m < 30)
    (hmiss : ∀ j, j < m →
      ¬((remote.polls j).status = 200 ∧ (remote.polls j).generations_by_pk.status = "COMPLETE"))
    (hs : (remote.polls m).status = 200)
    (hc : (remote.polls m).generations_by_pk.status = "COMPLETE")
    (himg : (remote.polls m).generations_by_pk.generated_images = []) :
    (generate req remote).1.status = 500
    ∧ (generate req remote).1.body
        = Body.jsonObj [("error", JsonVal.str "API request failed: list index out of range")]
    ∧ (generate req remote).2.pollCount = m + 1 := by
  have hhit : pollHit (remote.polls m) = true := by simp [pollHit, hs, hc]
  have h30 : m + ((30 - m - 1) + 1) = 30 := by omega
  have hp := pollLoopAux_first_hit remote.polls m (30 - m - 1)
    (fun j hj => pollHit_eq_false _ (hmiss j hj)) hhit
  rw [h30] at hp
  simp only [himg] at hp
  simp [generate, h1, h2, h3, hp]

theorem C9_empty_images_fatal_witness :
    pyTruthyStr reqOk.idea = true
    ∧ remoteEmptyComplete.submitStatus = 200
    ∧ remoteEmptyComplete.submitGenerationId = some "gid-4"
    ∧ 0 < 30
    ∧ (∀ j, j < 0 →
        ¬((remoteEmptyComplete.polls j).status = 200
          ∧ (remoteEmptyComplete.polls j).generations_by_pk.status = "COMPLETE"))
    ∧ (remoteEmptyComplete.polls 0).status = 200
    ∧ (remoteEmptyComplete.polls 0).generations_by_pk.status = "COMPLETE"
    ∧ (remoteEmptyComplete.polls 0).generations_by_pk.generated_images = []
    ∧ ((generate reqOk remoteEmptyComplete).1.status = 500
       ∧ (generate reqOk remoteEmptyComplete).1.body
           = Body.jsonObj [("error", JsonVal.str "API request failed: list index out of range")]
       ∧ (generate reqOk remoteEmptyComplete).2.pollCount = 0 + 1) :=
  ⟨by decide, by decide, by decide, by decide, by decide, by decide, by decide, by decide,
   C9_empty_images_fatal reqOk remoteEmptyComplete "gid-4" 0 (by decide) (by decide)
     (by decide) (by decide) (by decide) (by decide) (by decide) (by decide)⟩

/-- C10: the response of `POST /api/generate` — status, body, headers, and the
trace of outbound calls — is independent of the `isRegeneration` field: the
source reads it (line 56) but never uses it. -/
theorem C10_isRegeneration_irrelevant (req : GenRequest) (remote : RemoteBehavior)
    (b₁ b₂ : Option Bool) :
    generate {req with isRegeneration := b₁} remote
      = generate {req with isRegeneration := b₂} remote := by
  cases req
  rfl
